import Mathlib

/-!
Verification development for the MTGA log follower (`mtga_follower.py`).

The Python source is shallowly embedded: the `Follower` object's mutable
fields become a Lean structure that handlers transform explicitly; Python
dicts and `defaultdict`s become association lists; code that can raise
becomes `Except`-valued; external effects (the regex engine, the JSON
decoder for nested request strings, HTTP responses) are passed in as
explicit parameters so that the control flow around them is modelled
exactly as written in the source.
-/

set_option autoImplicit false

namespace Mtga

/-- JSON values as decoded by the client's `json.JSONDecoder`. -/
inductive Json where
  | obj : List (String × Json) → Json
  | arr : List Json → Json
  | str : String → Json
  | num : Int → Json
  | boolean : Bool → Json
  | null : Json
  deriving Inhabited

/-- Key lookup in a decoded JSON object's field list (Python `blob[key]` /
`key in blob` on a dict; decoded JSON objects have distinct keys). -/
def lookupField : List (String × Json) → String → Option Json
  | [], _ => none
  | (k, v) :: rest, key => if k = key then some v else lookupField rest key

/-- Source: `d.get(k)` on a Python dict modelled as an association list. -/
def lookupA {β : Type} : List (Nat × β) → Nat → Option β
  | [], _ => none
  | (k, v) :: rest, key => if k = key then some v else lookupA rest key

/-- Source: `d[k]` read on a `defaultdict` whose default is `dflt`. -/
def lookupD {β : Type} (m : List (Nat × β)) (key : Nat) (dflt : β) : β :=
  (lookupA m key).getD dflt

/-- Source: `d[k] = v` on a Python dict modelled as an association list. -/
def setA {β : Type} : List (Nat × β) → Nat → β → List (Nat × β)
  | [], key, v => [(key, v)]
  | (k, v') :: rest, key, v =>
    if k = key then (key, v) :: rest else (k, v') :: setA rest key v

/-!  ## The Follower's mutable state (`Follower.__init__`)  -/

/-- The mutable fields of the Python `Follower` object.

Times are modelled as natural numbers (seconds); `cur_log_time` is an
`Option` because the source tests it against `None` even though
`__init__` sets it to `datetime.datetime.fromtimestamp(0)` (the epoch,
modelled as `some 0`) and the only other assignments store parsed
timestamps (line 253's reset to `None` is commented out in the source).
Seat ids, instance ids and card ids are natural numbers; dicts and
`defaultdict`s are association lists (empty list = empty dict). -/
structure Follower where
  host : String
  token : String
  buffer : List String
  cur_log_time : Option Nat
  last_utc_time : Nat
  last_raw_time : String
  cur_user : Option String
  cur_constructed_level : Option String
  cur_limited_level : Option String
  cur_opponent_level : Option String
  cur_opponent_match_id : Option String
  current_match_event_id : Option (String × String)
  starting_team_id : Option Nat
  objects_by_owner : List (Nat × List (Nat × Nat))
  opening_hand_count_by_seat : List (Nat × Nat)
  opening_hand : List (Nat × List (Option Nat))
  drawn_hands : List (Nat × List (List (Option Nat)))
  cards_in_hand : List (Nat × List (Option Nat))
  deriving Repr, DecidableEq

/-- Source: `Follower.__init__(token, host)`. -/
def init_follower (token host : String) : Follower where
  host := host
  token := token
  buffer := []
  cur_log_time := some 0
  last_utc_time := 0
  last_raw_time := ""
  cur_user := none
  cur_constructed_level := none
  cur_limited_level := none
  cur_opponent_level := none
  cur_opponent_match_id := none
  current_match_event_id := none
  starting_team_id := none
  objects_by_owner := []
  opening_hand_count_by_seat := []
  opening_hand := []
  drawn_hands := []
  cards_in_hand := []

/-!  ## Publisher (`Follower.__retry_post`)  -/

/-- Source: `IS_CODE_FOR_RETRY = lambda code: code >= 500 and code < 600`. -/
def IS_CODE_FOR_RETRY (code : Nat) : Bool :=
  500 ≤ code && code < 600

/-- Source: `RETRIES = 2`. -/
def RETRIES : Nat := 2

/-- The `while tries_left > 0` loop of `__retry_post`.  `resp i` is the
status code returned by the `i`-th POST attempt (0-based), `attempt` the
number of attempts already made, and the second argument is `tries_left`
on entry to the loop test.  Returns (total attempts made, final status
code).  The `0` case is the loop being skipped entirely, unreachable
because the loop starts with `tries_left = num_retries + 1 ≥ 1`. -/
def retry_post_loop (resp : Nat → Nat) : Nat → Nat → Nat × Nat
  | attempt, 0 => (attempt, 0)
  | attempt, t + 1 =>
    let code := resp attempt
    if IS_CODE_FOR_RETRY code && decide (0 < t) then
      retry_post_loop resp (attempt + 1) t
    else
      (attempt + 1, code)

/-- Source: `Follower.__retry_post`, abstracted over the sequence of HTTP
responses: sets `tries_left = num_retries + 1` and runs the retry loop.
Returns (total POST attempts made, status code of the final response). -/
def retry_post (resp : Nat → Nat) (num_retries : Nat) : Nat × Nat :=
  retry_post_loop resp 0 (num_retries + 1)

/-!  ## Deck-list v3 decoding (`Follower.__get_card_ids_from_decklist_v3`)  -/

/-- The message of the `assert len(decklist) % 2 == 0` failure. -/
def decklist_assert_msg : String := "assert len(decklist) % 2 == 0"

/-- The expansion loop of `__get_card_ids_from_decklist_v3`: for each
`(card_id, count)` pair of the flat alternating list, append `card_id`
`count` times (`range(count)` of a non-positive count is empty, hence
`Int.toNat`).  A trailing odd element is never reached because the
caller asserts evenness first. -/
def expand_decklist : List Int → List Int
  | card_id :: count :: rest => List.replicate count.toNat card_id ++ expand_decklist rest
  | _ => []

/-- Source: `Follower.__get_card_ids_from_decklist_v3`: asserts the flat list has
even length (an `AssertionError` propagates to the per-entry catch
boundary), then expands each (card id, count) pair. -/
def get_card_ids_from_decklist_v3 (decklist : List Int) : Except String (List Int) :=
  if decklist.length % 2 = 0 then
    Except.ok (expand_decklist decklist)
  else
    Except.error decklist_assert_msg

/-- Specification-side multiset count: the total count paired with card id
`x` across the flat alternating (card id, count) sequence. -/
def decklist_count (x : Int) : List Int → Nat
  | card_id :: count :: rest =>
    (if card_id = x then count.toNat else 0) + decklist_count x rest
  | _ => 0

/-!  ## Payload extraction (`Follower.__extract_payload`, `__handle_blob`)  -/

/-- Source: `Follower.__extract_payload`.  `decode` is the nested
`json_decoder.raw_decode` applied to the value of a `request` field;
the source's `raw_decode` only accepts strings, and any exception it
raises (including a non-string argument) is swallowed, falling through
to `return blob`.  Membership tests `in` on a non-dict decoded value
find no key for the values this client sees, so non-objects are
returned unchanged by the first test. -/
def extract_payload (decode : String → Option Json) (blob : Json) : Json :=
  match blob with
  | Json.obj fields =>
    match lookupField fields "id" with
    | none => blob
    | some _ =>
      match lookupField fields "payload" with
      | some p => p
      | none =>
        match lookupField fields "request" with
        | some (Json.str s) =>
          match decode s with
          | some j => j
          | none => blob
        | some _ => blob
        | none => blob
  | _ => blob

/-- Whether a decoded value is a Python dict (`type(json_obj) == dict`). -/
def is_mapping : Json → Bool
  | Json.obj _ => true
  | _ => false

/-- The front of `Follower.__handle_blob` after a successful top-level
decode: unwrap the envelope, then `if type(json_obj) != dict: return` —
only mapping-shaped effective messages reach classification. -/
def effective_message (decode : String → Option Json) (blob : Json) : Option Json :=
  let json_obj := extract_payload decode blob
  if is_mapping json_obj then some json_obj else none

/-!  ## Segmenter (`Follower.__handle_complete_log_entry`, `__append_line`)  -/

/-- Source: `Follower.__handle_complete_log_entry`.  `process` is the downstream
`__handle_blob` pipeline: it may update the follower state and may
raise; a raised exception is caught and logged (catch-log-continue)
and the buffer is cleared in every branch that reaches it.  The first
component reports the joined blob handed to `process` (`none` when the
entry was not processed at all); the last component is the records the
processing emitted. -/
def handle_complete_log_entry {E A : Type}
    (process : String → Follower → Follower × Except E (List A))
    (s : Follower) : Option String × Follower × List A :=
  if s.buffer = [] then
    (none, s, [])
  else if s.cur_log_time = none then
    (none, { s with buffer := [] }, [])
  else
    let full_log := String.join s.buffer
    let (s', res) := process full_log s
    match res with
    | Except.ok recs => (some full_log, { s' with buffer := [] }, recs)
    | Except.error _ => (some full_log, { s' with buffer := [] }, [])

/-- Source: `Follower.__append_line`.  The regex matches are passed in as
parameters: `account_match` is `ACCOUNT_INFO_REGEX` (screen name,
account id); `timestamp_match` is `TIMESTAMP_REGEX` (raw text and its
`extract_time` value); `entry_start` is the entry-start-marker match —
`none` for a continuation line, `some (timed, rest)` when the marker
matched, where `timed` carries the marker's own timestamp when
`LOG_START_REGEX_TIMED` also matched and `rest` is the line with the
matched prefix stripped.  Closing the previous entry on an entry-start
marker runs the same `__handle_complete_log_entry`, whose emitted
records are returned. -/
def append_line {E A : Type}
    (process : String → Follower → Follower × Except E (List A))
    (s : Follower)
    (account_match : Option (String × String))
    (timestamp_match : Option (String × Nat))
    (entry_start : Option (Option (String × Nat) × String))
    (line : String) : Follower × List A :=
  let s := match account_match with
    | some (_, account_id) => { s with cur_user := some account_id }
    | none => s
  let s := match timestamp_match with
    | some (raw, t) => { s with last_raw_time := raw, cur_log_time := some t }
    | none => s
  match entry_start with
  | none => ({ s with buffer := s.buffer ++ [line] }, [])
  | some (timed, rest) =>
    let closed := handle_complete_log_entry process s
    let s := closed.2.1
    let recs := closed.2.2
    match timed with
    | some (raw, t) =>
      ({ s with last_raw_time := raw, cur_log_time := some t,
                buffer := s.buffer ++ [rest] }, recs)
    | none => ({ s with buffer := s.buffer ++ [rest] }, recs)

/-!  ## GRE game-state messages

Structures mirror the fields the source reads from a
`GREMessageType_GameStateMessage`.  A field read with `.get(...)` is an
`Option` (or a list with `[]` default); a field indexed directly
(`blob['key']`, raising `KeyError` when absent) is either kept total
when every message carrying the object carries the field, or modelled
as an `Option` whose absence produces an error, where a claim depends
on the failure.  `.get('gameInfo', {})` and `.get('turnInfo', {})`
default to an empty dict, which is the structure with every optional
field `none`.

Python `defaultdict` auto-insertion of default values on read is not
modelled: an auto-inserted empty default is observationally equal to an
absent key for every read performed by this program.  -/

/-- An element of `gameStateMessage['gameObjects']`. -/
structure GameObject where
  type : String
  ownerSeatId : Nat
  instanceId : Nat
  overlayGrpId : Nat
  deriving Repr, DecidableEq

/-- An element of `gameStateMessage['zones']`. -/
structure Zone where
  type : String
  ownerSeatId : Nat
  objectInstanceIds : List Nat
  deriving Repr, DecidableEq

/-- Source: `gameStateMessage['turnInfo']`. -/
structure TurnInfo where
  phase : Option String := none
  step : Option String := none
  turnNumber : Option Int := none
  activePlayer : Option Nat := none
  deriving Repr, DecidableEq

/-- An element of `gameStateMessage['players']`. -/
structure PlayerInfo where
  systemSeatNumber : Nat
  mulliganCount : Option Nat := none
  pendingMessageType : Option String := none
  turnNumber : Option Int := none
  deriving Repr, DecidableEq

/-- An element of `gameInfo['results']`.  `scope` is read with `.get`;
the remaining fields are indexed directly on the entry the scan stops
at, so their absence is a `KeyError`. -/
structure ResultEntry where
  scope : Option String := none
  winningTeamId : Option Nat := none
  result : Option String := none
  reason : Option String := none
  deriving Repr, DecidableEq

/-- Source: `gameStateMessage['gameInfo']`. -/
structure GameInfo where
  stage : Option String := none
  matchID : Option String := none
  results : List ResultEntry := []
  deriving Repr, DecidableEq

/-- A `GREMessageType_GameStateMessage` payload. -/
structure GameStateMessage where
  gameInfo : GameInfo := {}
  turnInfo : TurnInfo := {}
  players : List PlayerInfo := []
  gameObjects : List GameObject := []
  zones : List Zone := []
  deriving Repr, DecidableEq

/-- The exceptions the game-over path can raise: `system_seat_ids[0]`
on an empty list (`IndexError`) and a direct key lookup on a missing
field (`KeyError`). -/
inductive GameOverErr where
  | seatIndex : GameOverErr
  | missingField : String → GameOverErr
  deriving Repr, DecidableEq

/-- The game-result record assembled by `Follower.__send_game_end`. -/
structure GameRecord where
  player_id : Option String
  event_name : Option String
  match_id : String
  on_play : Bool
  won : Bool
  win_type : String
  game_end_reason : String
  opening_hand : List (Option Nat)
  mulligans : List (List (Option Nat))
  mulligan_count : Int
  opponent_mulligan_count : Int
  turns : Int
  duration : Int
  opponent_card_ids : List Nat
  limited_rank : Option String
  constructed_rank : Option String
  opponent_rank : Option String
  deriving Repr, DecidableEq

/-- Source: `Follower.__clear_game_data`. -/
def clear_game_data (s : Follower) : Follower :=
  { s with
    objects_by_owner := []
    opening_hand_count_by_seat := []
    opening_hand := []
    drawn_hands := []
    starting_team_id := none }

/-- Source: `Follower.__send_game_end`: assembles the game-result record from the
arguments plus aggregator state, invalidates the cached opponent rank
when the match id does not match, clears the game data after building
the record, and posts it. -/
def send_game_end (s : Follower) (seat_id : Nat) (match_id : String)
    (mulliganed_hands : List (List (Option Nat))) (event_name : Option String)
    (on_play won : Bool) (win_type game_end_reason : String)
    (turn_count duration : Int) : Follower × GameRecord :=
  let opponent_id := if seat_id = 1 then 2 else 1
  let opponent_card_ids := (lookupD s.objects_by_owner opponent_id []).map Prod.snd
  let s := if s.cur_opponent_match_id ≠ some match_id then
    { s with cur_opponent_level := none } else s
  let game : GameRecord :=
    { player_id := s.cur_user
      event_name := event_name
      match_id := match_id
      on_play := on_play
      won := won
      win_type := win_type
      game_end_reason := game_end_reason
      opening_hand := lookupD s.opening_hand seat_id []
      mulligans := mulliganed_hands
      mulligan_count := Int.ofNat (lookupD s.opening_hand_count_by_seat seat_id 0) - 1
      opponent_mulligan_count := Int.ofNat (lookupD s.opening_hand_count_by_seat opponent_id 0) - 1
      turns := turn_count
      duration := duration
      opponent_card_ids := opponent_card_ids
      limited_rank := s.cur_limited_level
      constructed_rank := s.cur_constructed_level
      opponent_rank := s.cur_opponent_level }
  (clear_game_data s, game)

/-- Source: `sum(p['turnNumber'] for p in players)`: raises on the first player
missing the field. -/
def players_turn_sum : List PlayerInfo → Except GameOverErr Int
  | [] => Except.ok 0
  | p :: rest =>
    match p.turnNumber with
    | none => Except.error (GameOverErr.missingField "turnNumber")
    | some t => (players_turn_sum rest).map (fun acc => t + acc)

/-- The fallback chain computing `maybe_turn_number`. -/
def maybe_turn_number (gsm : GameStateMessage) : Except GameOverErr Int :=
  match gsm.turnInfo.turnNumber with
  | some t => Except.ok t
  | none =>
    if gsm.players.length > 0 then players_turn_sum gsm.players
    else Except.ok (-1)

/-- The scan predicate: `result.get('scope') != 'MatchScope_Game'` skips
the entry. -/
def is_per_game_result (r : ResultEntry) : Bool :=
  r.scope == some "MatchScope_Game"

/-- The body executed by `__maybe_handle_game_over_stage` at the first
per-game result entry the reversed scan reaches: read
`system_seat_ids[0]` (`IndexError` on an empty list) and the required
fields of the entry, and emit one game-result record through
`__send_game_end`. -/
def emit_game_result (s : Follower) (system_seat_ids : List Nat)
    (game_info : GameInfo) (gsm : GameStateMessage) (r : ResultEntry) :
    Except GameOverErr (Follower × Option GameRecord) :=
  match system_seat_ids with
  | [] => Except.error GameOverErr.seatIndex
  | seat_id :: _ =>
    match game_info.matchID with
    | none => Except.error (GameOverErr.missingField "matchID")
    | some match_id =>
      let event_id : Option String :=
        match s.current_match_event_id with
        | some (m, e) => if m = match_id then some e else none
        | none => none
      match maybe_turn_number gsm with
      | Except.error e => Except.error e
      | Except.ok turn_count =>
        match r.winningTeamId with
        | none => Except.error (GameOverErr.missingField "winningTeamId")
        | some winning_team_id =>
          match r.result with
          | none => Except.error (GameOverErr.missingField "result")
          | some win_type =>
            match r.reason with
            | none => Except.error (GameOverErr.missingField "reason")
            | some game_end_reason =>
              let sg := send_game_end s seat_id match_id
                (lookupD s.drawn_hands seat_id []).dropLast event_id
                (s.starting_team_id = some seat_id)
                (winning_team_id = seat_id)
                win_type game_end_reason turn_count (-1)
              Except.ok (sg.1, some sg.2)

/-- The `for result in reversed(results)` loop of
`Follower.__maybe_handle_game_over_stage`, applied to the already
reversed list: skip entries whose scope is not per-game; at the first
per-game entry emit one record and return. -/
def game_over_scan (s : Follower) (system_seat_ids : List Nat)
    (game_info : GameInfo) (gsm : GameStateMessage) :
    List ResultEntry → Except GameOverErr (Follower × Option GameRecord)
  | [] => Except.ok (s, none)
  | r :: rest =>
    if ¬ is_per_game_result r then
      game_over_scan s system_seat_ids game_info gsm rest
    else
      emit_game_result s system_seat_ids game_info gsm r

/-- Source: `Follower.__maybe_handle_game_over_stage`. -/
def maybe_handle_game_over_stage (s : Follower) (system_seat_ids : List Nat)
    (gsm : GameStateMessage) : Except GameOverErr (Follower × Option GameRecord) :=
  let game_info := gsm.gameInfo
  if game_info.stage ≠ some "GameStage_GameOver" then Except.ok (s, none)
  else game_over_scan s system_seat_ids game_info gsm game_info.results.reverse

/-- The `gameObjects` loop of `__handle_gre_to_client_message`: record
`(owner seat, instance id) → card id` for every object of card type. -/
def process_game_objects (s : Follower) (objs : List GameObject) : Follower :=
  objs.foldl (fun st game_object =>
    if game_object.type ≠ "GameObjectType_Card" then st
    else
      let owner := game_object.ownerSeatId
      let owned := setA (lookupD st.objects_by_owner owner [])
        game_object.instanceId game_object.overlayGrpId
      { st with objects_by_owner := setA st.objects_by_owner owner owned }) s

/-- The `zones` loop of `__handle_gre_to_client_message`: for every zone
of hand type, rebuild that seat's current hand with the comprehension
`[player_objects.get(i) for i in hand_card_ids if i]` — each truthy
(non-zero) listed instance id is looked up in the owner's objects, a
missing instance id yielding `None`. -/
def process_zones (s : Follower) (zones : List Zone) : Follower :=
  zones.foldl (fun st zone =>
    if zone.type = "ZoneType_Hand" then
      let owner := zone.ownerSeatId
      let player_objects := lookupD st.objects_by_owner owner []
      let hand_card_ids := zone.objectInstanceIds
      let new_hand := (hand_card_ids.filter (fun instance_id => instance_id ≠ 0)).map
        (fun instance_id => lookupA player_objects instance_id)
      { st with cards_in_hand := setA st.cards_in_hand owner new_hand }
    else st) s

/-- The `players_deciding_hand` set comprehension: the (seat, mulligan
count) pairs of players pending a mulligan decision, deduplicated.
CPython iterates the set in an unspecified order; the model fixes the
filtered message order (first occurrence kept), on which every state
read the claims make is order-independent. -/
def players_deciding_hand (players : List PlayerInfo) : List (Nat × Nat) :=
  ((players.filter
      (fun p => p.pendingMessageType == some "ClientMessageType_MulliganResp")).map
    (fun p => (p.systemSeatNumber, p.mulliganCount.getD 0))).eraseDups

/-- The body of the `for (player_id, mulligan_count) in
players_deciding_hand` loop: capture the active player as the starting
team if not yet set, bump the seat's opening-hand presentation counter,
and snapshot the seat's current hand into its mulligan history when the
observed mulligan count equals the number of hands already captured. -/
def process_mulligan_pair (turn_info : TurnInfo) (st : Follower)
    (pair : Nat × Nat) : Follower :=
  let player_id := pair.1
  let mulligan_count := pair.2
  let st := if st.starting_team_id = none then
    { st with starting_team_id := turn_info.activePlayer } else st
  let bumped := setA st.opening_hand_count_by_seat player_id
    (lookupD st.opening_hand_count_by_seat player_id 0 + 1)
  let st := { st with opening_hand_count_by_seat := bumped }
  if mulligan_count = (lookupD st.drawn_hands player_id []).length then
    let appended := setA st.drawn_hands player_id
      (lookupD st.drawn_hands player_id [] ++ [lookupD st.cards_in_hand player_id []])
    { st with drawn_hands := appended }
  else st

/-- The mulligan-tracking block of `__handle_gre_to_client_message`. -/
def process_mulligans (s : Follower) (turn_info : TurnInfo)
    (players : List PlayerInfo) : Follower :=
  (players_deciding_hand players).foldl (process_mulligan_pair turn_info) s

/-- The opening-hand capture at the end of
`__handle_gre_to_client_message`: the first time turn info shows
beginning phase, upkeep step, turn 1 while no opening hand has been
captured, snapshot every seat's current hand. -/
def capture_opening_hand (s : Follower) (turn_info : TurnInfo) : Follower :=
  if s.opening_hand = [] ∧ turn_info.phase = some "Phase_Beginning" ∧
      turn_info.step = some "Step_Upkeep" ∧ turn_info.turnNumber = some 1 then
    { s with opening_hand := s.cards_in_hand }
  else s

/-- The `GREMessageType_GameStateMessage` branch of
`Follower.__handle_gre_to_client_message`: the game-over check runs
first (against the pre-update state), then object tracking, hand
tracking, mulligan tracking and opening-hand capture in source order. -/
def handle_game_state_message (s : Follower) (system_seat_ids : List Nat)
    (gsm : GameStateMessage) : Except GameOverErr (Follower × Option GameRecord) :=
  match maybe_handle_game_over_stage s system_seat_ids gsm with
  | Except.error e => Except.error e
  | Except.ok (s, emitted) =>
    let s := process_game_objects s gsm.gameObjects
    let s := process_zones s gsm.zones
    let s := process_mulligans s gsm.turnInfo gsm.players
    let s := capture_opening_hand s gsm.turnInfo
    Except.ok (s, emitted)

/-!  ## Record-building handlers that reset aggregator state

Record assembly in these handlers reads only the message (and fields of
the state the handler does not change), so each handler's state effect
is modelled exactly; message-derived record fields are parameters. -/

/-- The user-identity record of `__handle_login` /
`__maybe_handle_account_info`. -/
structure UserRecord where
  player_id : Option String
  screen_name : String
  raw_time : String
  deriving Repr, DecidableEq

/-- Source: `Follower.__handle_login`: clears the game data, stores the player
id, and emits a user record. -/
def handle_login (s : Follower) (player_id screen_name : String) :
    Follower × UserRecord :=
  let s := clear_game_data s
  let s := { s with cur_user := some player_id }
  (s, { player_id := s.cur_user, screen_name := screen_name,
        raw_time := s.last_raw_time })

/-- Source: `Follower.__handle_draft_log`: clears the game data (and emits a
draft-pack record) only when the draft status is `Draft.PickNext`. -/
def handle_draft_log (s : Follower) (draft_status : String) : Follower :=
  if draft_status = "Draft.PickNext" then clear_game_data s else s

/-- Source: `Follower.__handle_draft_pick`: clears the game data, then emits a
pick record assembled from the message alone. -/
def handle_draft_pick (s : Follower) : Follower :=
  clear_game_data s

/-- Source: `Follower.__handle_human_draft_pick`: clears the game data, then
emits a pick record assembled from the message alone. -/
def handle_human_draft_pick (s : Follower) : Follower :=
  clear_game_data s

/-- Source: `Follower.__handle_deck_submission`: clears the game data first;
the subsequent deck decode reads the message alone. -/
def handle_deck_submission (s : Follower) : Follower :=
  clear_game_data s

/-- Source: `Follower.__handle_match_created`: clears the game data, then caches
the opponent's rank string and match id.  `get_rank_string` always
yields a string (missing components serialize as their absence
marker), so the cached opponent level is always `some`. -/
def handle_match_created (s : Follower) (opponent_rank_string : String)
    (match_id : Option String) : Follower :=
  let s := clear_game_data s
  { s with cur_opponent_level := some opponent_rank_string,
           cur_opponent_match_id := match_id }

/-- The deck-submission record of `__handle_deck_submission_v3`. -/
structure DeckRecord where
  player_id : Option String
  event_name : String
  maindeck_card_ids : List Int
  sideboard_card_ids : List Int
  is_during_match : Bool
  companion : Option Int
  deriving Repr, DecidableEq

/-- Source: `Follower.__handle_deck_submission_v3`: clears the game data first,
then decodes the main deck and the sideboard; a failed assertion in
either decode propagates (the already-cleared state persists, as the
Python object was mutated in place before the raise). -/
def handle_deck_submission_v3 (s : Follower) (event_name : String)
    (mainDeck sideboard : List Int) (companion : Option Int) :
    Follower × Except String DeckRecord :=
  let s := clear_game_data s
  let deck : Except String DeckRecord :=
    match get_card_ids_from_decklist_v3 mainDeck with
    | Except.error e => Except.error e
    | Except.ok maindeck_card_ids =>
      match get_card_ids_from_decklist_v3 sideboard with
      | Except.error e => Except.error e
      | Except.ok sideboard_card_ids =>
        Except.ok
          { player_id := s.cur_user
            event_name := event_name
            maindeck_card_ids := maindeck_card_ids
            sideboard_card_ids := sideboard_card_ids
            is_during_match := false
            companion := companion }
  (s, deck)

/-!  ## Shared lemmas about the association-list operations  -/

theorem lookupA_setA_self {β : Type} (m : List (Nat × β)) (k : Nat) (v : β) :
    lookupA (setA m k v) k = some v := by
  induction m with
  | nil => simp [setA, lookupA]
  | cons hd tl ih =>
    obtain ⟨k', v'⟩ := hd
    by_cases h : k' = k
    · simp [setA, lookupA, h]
    · simp [setA, lookupA, h, ih]

theorem lookupA_setA_ne {β : Type} (m : List (Nat × β)) (k k' : Nat) (v : β)
    (h : k' ≠ k) : lookupA (setA m k v) k' = lookupA m k' := by
  have hk : k ≠ k' := Ne.symm h
  induction m with
  | nil => simp [setA, lookupA, hk]
  | cons hd tl ih =>
    obtain ⟨k₀, v₀⟩ := hd
    by_cases h₀ : k₀ = k
    · subst h₀
      simp [setA, lookupA, hk]
    · simp only [setA, if_neg h₀, lookupA]
      by_cases h₁ : k₀ = k'
      · simp [h₁]
      · simp [h₁, ih]

theorem lookupD_setA_self {β : Type} (m : List (Nat × β)) (k : Nat) (v d : β) :
    lookupD (setA m k v) k d = v := by
  simp [lookupD, lookupA_setA_self]

/-!  ## C6 — Publisher retry policy  -/

/-- Characterization of the `__retry_post` loop: at least one and at most
`t` attempts are made, the final response is the last attempt's, every
attempt before the final one received a retryable (5xx) code, and the
loop stops before exhausting its budget only on a non-5xx code. -/
theorem retry_post_loop_spec (resp : Nat → Nat) :
    ∀ (t attempt : Nat), 0 < t →
      attempt < (retry_post_loop resp attempt t).1
      ∧ (retry_post_loop resp attempt t).1 ≤ attempt + t
      ∧ (retry_post_loop resp attempt t).2 = resp ((retry_post_loop resp attempt t).1 - 1)
      ∧ (∀ k, attempt ≤ k → k + 1 < (retry_post_loop resp attempt t).1 →
          IS_CODE_FOR_RETRY (resp k) = true)
      ∧ (IS_CODE_FOR_RETRY ((retry_post_loop resp attempt t).2) = false
          ∨ (retry_post_loop resp attempt t).1 = attempt + t)
  | 0, _, h => absurd h (by omega)
  | t + 1, attempt, _ => by
    by_cases hc : (IS_CODE_FOR_RETRY (resp attempt) && decide (0 < t)) = true
    · have ht : 0 < t := by
        have := (Bool.and_eq_true _ _).mp hc
        exact of_decide_eq_true this.2
      have hretry : IS_CODE_FOR_RETRY (resp attempt) = true :=
        ((Bool.and_eq_true _ _).mp hc).1
      have heq : retry_post_loop resp attempt (t + 1)
          = retry_post_loop resp (attempt + 1) t := by
        simp only [retry_post_loop, hc, if_true]
      have ih := retry_post_loop_spec resp t (attempt + 1) ht
      rw [heq]
      refine ⟨by omega, by omega, ih.2.2.1, ?_, ?_⟩
      · intro k hk hk2
        rcases Nat.eq_or_lt_of_le hk with he | hl
        · exact he ▸ hretry
        · exact ih.2.2.2.1 k hl hk2
      · rcases ih.2.2.2.2 with h | h
        · exact Or.inl h
        · exact Or.inr (by omega)
    · have hc' : (IS_CODE_FOR_RETRY (resp attempt) && decide (0 < t)) = false := by
        revert hc
        cases IS_CODE_FOR_RETRY (resp attempt) && decide (0 < t) <;> simp
      have heq : retry_post_loop resp attempt (t + 1) = (attempt + 1, resp attempt) := by
        simp [retry_post_loop, hc']
      rw [heq]
      refine ⟨by omega, by omega, by simp, ?_, ?_⟩
      · intro k hk hk2
        omega
      · by_cases hr : IS_CODE_FOR_RETRY (resp attempt) = true
        · have hd : decide (0 < t) = false := by
            cases hd : decide (0 < t)
            · rfl
            · rw [hr, hd] at hc'
              simp at hc'
          have ht0 : t = 0 := by
            have := of_decide_eq_false hd
            omega
          exact Or.inr (by simp [ht0])
        · left
          show IS_CODE_FOR_RETRY (attempt + 1, resp attempt).2 = false
          cases hx : IS_CODE_FOR_RETRY (resp attempt)
          · simp
          · exact absurd hx hr

/-- C6: the Publisher, given a retry budget of 2 extra attempts, retries
only on status codes in 500–599 and accepts any other status as final;
the response sequence [503, 503, 200] yields exactly 3 POST attempts
ending in the 200, and [500, 500, 500] yields exactly 3 attempts with
the final 500 as the terminal reported outcome (the model is a total
function: no exception escapes). -/
theorem claim_c6_retry_policy :
    retry_post (fun i => [503, 503, 200].getD i 0) RETRIES = (3, 200)
    ∧ retry_post (fun i => [500, 500, 500].getD i 0) RETRIES = (3, 500)
    ∧ (∀ (resp : Nat → Nat) (n k : Nat), k + 1 < (retry_post resp n).1 →
        IS_CODE_FOR_RETRY (resp k) = true)
    ∧ (∀ (resp : Nat → Nat) (n : Nat),
        IS_CODE_FOR_RETRY ((retry_post resp n).2) = false ∨ (retry_post resp n).1 = n + 1)
    ∧ (∀ (resp : Nat → Nat) (n : Nat),
        (retry_post resp n).2 = resp ((retry_post resp n).1 - 1)) := by
  refine ⟨by decide, by decide, ?_, ?_, ?_⟩
  · intro resp n k hk
    exact (retry_post_loop_spec resp (n + 1) 0 (by omega)).2.2.2.1 k (by omega) hk
  · intro resp n
    rcases (retry_post_loop_spec resp (n + 1) 0 (by omega)).2.2.2.2 with h | h
    · exact Or.inl h
    · exact Or.inr (by simpa [retry_post] using h)
  · intro resp n
    exact (retry_post_loop_spec resp (n + 1) 0 (by omega)).2.2.1

/-- Witness for C6: the retry-only-on-5xx conjunct applied at the
concrete [503, 503, 200] run, whose first attempt was retried. -/
theorem claim_c6_retry_policy_witness :
    IS_CODE_FOR_RETRY ((fun i => [503, 503, 200].getD i 0) 0) = true :=
  claim_c6_retry_policy.2.2.1 (fun i => [503, 503, 200].getD i 0) 2 0 (by decide)

/-!  ## C7 — deck-list v3 decoding  -/

/-- The expanded deck contains every card id exactly as often as the
input pairs' counts say. -/
theorem expand_decklist_count (x : Int) :
    ∀ l : List Int, (expand_decklist l).count x = decklist_count x l
  | [] => by simp [expand_decklist, decklist_count]
  | [a] => by simp [expand_decklist, decklist_count]
  | a :: b :: rest => by
    have ih := expand_decklist_count x rest
    simp only [expand_decklist, decklist_count, List.count_append, ih]
    congr 1
    rw [List.count_replicate]
    by_cases hab : a = x
    · simp [hab]
    · simp [hab, Ne.symm hab]

/-- C7: an even-length decklist-v3 array expands to the flat repetition
of each card id by its paired count, with exactly matching multiset
counts; an odd-length array raises the evenness assertion, which fails
the deck-submission-v3 record for that message only — the per-entry
catch boundary emits nothing, clears the buffer, and the follow loop
continues with later entries untouched. -/
theorem claim_c7_decklist_v3 (l : List Int) :
    (l.length % 2 = 0 →
      get_card_ids_from_decklist_v3 l = Except.ok (expand_decklist l)
      ∧ ∀ x : Int, (expand_decklist l).count x = decklist_count x l)
    ∧ (l.length % 2 ≠ 0 →
      get_card_ids_from_decklist_v3 l = Except.error decklist_assert_msg
      ∧ (∀ (s : Follower) (ev : String) (sb : List Int) (cp : Option Int),
          (handle_deck_submission_v3 s ev l sb cp).2 = Except.error decklist_assert_msg)
      ∧ (∀ (A : Type) (st st' : Follower) (e : String),
          st.buffer ≠ [] → st.cur_log_time ≠ none →
          handle_complete_log_entry (A := A) (fun _ _ => (st', Except.error e)) st
            = (some (String.join st.buffer), { st' with buffer := [] }, []))) := by
  constructor
  · intro he
    exact ⟨by simp [get_card_ids_from_decklist_v3, he],
           fun x => expand_decklist_count x l⟩
  · intro ho
    have herr : get_card_ids_from_decklist_v3 l = Except.error decklist_assert_msg := by
      simp [get_card_ids_from_decklist_v3, ho]
    refine ⟨herr, ?_, ?_⟩
    · intro s ev sb cp
      simp [handle_deck_submission_v3, herr]
    · intro A st st' e hb ht
      simp [handle_complete_log_entry, hb, ht]

/-- Witness for C7: a concrete even decklist expands successfully and a
concrete odd decklist is rejected with the assertion error. -/
theorem claim_c7_decklist_v3_witness :
    get_card_ids_from_decklist_v3 [(1 : Int), 2] = Except.ok (expand_decklist [(1 : Int), 2])
    ∧ get_card_ids_from_decklist_v3 [(1 : Int), 2, 5] = Except.error decklist_assert_msg :=
  ⟨((claim_c7_decklist_v3 [1, 2]).1 (by decide)).1,
   ((claim_c7_decklist_v3 [1, 2, 5]).2 (by decide)).1⟩

/-!  ## C9 — frame condition of `__clear_game_data`  -/

/-- C9: the aggregator reset leaves the user identity, the
match-to-event correlation, the opponent match id, the cached rank
strings, the last known UTC time (and every other non-aggregator
field) unchanged, and mutates exactly object ownership, the
opening-hand presentation counters, the opening hands, the captured
mulligan hands, and the on-the-play marker. -/
theorem claim_c9_clear_game_data_frame (s : Follower) :
    (clear_game_data s).cur_user = s.cur_user
    ∧ (clear_game_data s).current_match_event_id = s.current_match_event_id
    ∧ (clear_game_data s).cur_opponent_match_id = s.cur_opponent_match_id
    ∧ (clear_game_data s).cur_limited_level = s.cur_limited_level
    ∧ (clear_game_data s).cur_constructed_level = s.cur_constructed_level
    ∧ (clear_game_data s).cur_opponent_level = s.cur_opponent_level
    ∧ (clear_game_data s).last_utc_time = s.last_utc_time
    ∧ (clear_game_data s).host = s.host
    ∧ (clear_game_data s).token = s.token
    ∧ (clear_game_data s).buffer = s.buffer
    ∧ (clear_game_data s).cur_log_time = s.cur_log_time
    ∧ (clear_game_data s).last_raw_time = s.last_raw_time
    ∧ (clear_game_data s).cards_in_hand = s.cards_in_hand
    ∧ (clear_game_data s).objects_by_owner = []
    ∧ (clear_game_data s).opening_hand_count_by_seat = []
    ∧ (clear_game_data s).opening_hand = []
    ∧ (clear_game_data s).drawn_hands = []
    ∧ (clear_game_data s).starting_team_id = none :=
  ⟨rfl, rfl, rfl, rfl, rfl, rfl, rfl, rfl, rfl, rfl, rfl, rfl, rfl, rfl, rfl,
   rfl, rfl, rfl⟩

/-!  ## C2 — aggregator reset on login and the other reset triggers  -/

/-- Counterexample to C2: after a login the per-seat current hands
(`cards_in_hand`) are NOT cleared — `__clear_game_data` never touches
them — so a state whose seat-2 hand is non-empty keeps it across the
login reset. -/
theorem claim_c2_counterexample :
    ((handle_login
        { init_follower "tok" "host" with
            cards_in_hand := [(2, [some 100, some 101])] }
        "player1" "screen1").1).cards_in_hand = [(2, [some 100, some 101])]
    ∧ [(2, [some (100 : Nat), some 101])] ≠ ([] : List (Nat × List (Option Nat))) :=
  ⟨rfl, by decide⟩

/-- C2 (amended): the login, draft-pack (on `Draft.PickNext`),
draft-pick, human-draft-pick, deck-submission (both versions) and
match-created handlers all clear object ownership, the opening-hand
presentation counters, the opening hands, the mulligan history and the
on-the-play marker — but the per-seat current hands (`cards_in_hand`)
are left unchanged, not cleared. -/
theorem claim_c2_reset_clears_all_but_current_hands (s : Follower)
    (player_id screen_name rank ev : String) (mid : Option String)
    (main side : List Int) (cp : Option Int) :
    ((clear_game_data s).objects_by_owner = []
      ∧ (clear_game_data s).opening_hand_count_by_seat = []
      ∧ (clear_game_data s).opening_hand = []
      ∧ (clear_game_data s).drawn_hands = []
      ∧ (clear_game_data s).starting_team_id = none
      ∧ (clear_game_data s).cards_in_hand = s.cards_in_hand)
    ∧ (handle_login s player_id screen_name).1
        = { clear_game_data s with cur_user := some player_id }
    ∧ handle_draft_log s "Draft.PickNext" = clear_game_data s
    ∧ handle_draft_pick s = clear_game_data s
    ∧ handle_human_draft_pick s = clear_game_data s
    ∧ handle_deck_submission s = clear_game_data s
    ∧ (handle_deck_submission_v3 s ev main side cp).1 = clear_game_data s
    ∧ handle_match_created s rank mid
        = { clear_game_data s with
              cur_opponent_level := some rank, cur_opponent_match_id := mid } :=
  ⟨⟨rfl, rfl, rfl, rfl, rfl, rfl⟩, rfl, by simp [handle_draft_log], rfl, rfl,
   rfl, rfl, rfl⟩

/-!  ## C1 — closing an entry with no timestamp ever observed  -/

/-- Counterexample to C1: construct a fresh Follower, append one
continuation line that carries no timestamp (so no timestamp has ever
been observed), and close the entry: the buffer is handed to the blob
pipeline (first component) and the processing emits its records — the
entry is NOT discarded, because `cur_log_time` is initialized to the
epoch rather than `None` and the `None` discard branch is dead. -/
theorem claim_c1_counterexample :
    (handle_complete_log_entry (E := String)
        (fun blob st => (st, Except.ok [blob]))
        ((append_line (E := String)
            (fun blob st => (st, Except.ok [blob]))
            (init_follower "tok" "host") none none none "payload").1)).1
      = some "payload"
    ∧ (handle_complete_log_entry (E := String)
        (fun blob st => (st, Except.ok [blob]))
        ((append_line (E := String)
            (fun blob st => (st, Except.ok [blob]))
            (init_follower "tok" "host") none none none "payload").1)).2.2
      = ["payload"] :=
  ⟨rfl, rfl⟩

/-- Source: `__handle_complete_log_entry` leaves `cur_log_time` unchanged
whenever the blob pipeline does. -/
theorem handle_complete_log_entry_time {E A : Type}
    (process : String → Follower → Follower × Except E (List A))
    (hp : ∀ blob st, ((process blob st).1).cur_log_time = st.cur_log_time)
    (s : Follower) :
    ((handle_complete_log_entry process s).2.1).cur_log_time = s.cur_log_time := by
  have hps := hp (String.join s.buffer) s
  by_cases hb : s.buffer = []
  · simp [handle_complete_log_entry, hb]
  · by_cases ht : s.cur_log_time = none
    · simp [handle_complete_log_entry, hb, ht]
    · rcases hpr : process (String.join s.buffer) s with ⟨s', res⟩
      rw [hpr] at hps
      cases res <;> simp_all [handle_complete_log_entry, hb, ht, hpr]

/-- The value of `cur_log_time` after `__append_line`: the entry-start
marker's timestamp when it carried one, otherwise the line's leading
timestamp when present, otherwise unchanged. -/
theorem append_line_time {E A : Type}
    (process : String → Follower → Follower × Except E (List A))
    (hp : ∀ blob st, ((process blob st).1).cur_log_time = st.cur_log_time)
    (s : Follower) (line : String)
    (account_match : Option (String × String))
    (timestamp_match : Option (String × Nat))
    (entry_start : Option (Option (String × Nat) × String)) :
    ((append_line process s account_match timestamp_match entry_start line).1).cur_log_time =
      match entry_start with
      | some (some (_, t), _) => some t
      | some (none, _) | none =>
        match timestamp_match with
        | some (_, t) => some t
        | none => s.cur_log_time := by
  rcases account_match with _ | ⟨sn, aid⟩ <;>
    rcases timestamp_match with _ | ⟨raw, t⟩ <;>
    rcases entry_start with _ | ⟨timed, rest⟩ <;>
    try rcases timed with _ | ⟨raw2, t2⟩
  all_goals
    simp only [append_line]
  all_goals
    first
    | rfl
    | rw [handle_complete_log_entry_time process hp]

/-- C1 (amended): the source's discard branch fires only when
`cur_log_time` is `None`; but the Follower initializes `cur_log_time`
to the epoch, and appending lines only ever replaces it by parsed
timestamps, so an entry whose lines carried no timestamp at all is
still closed with the epoch time and handed to the blob pipeline — it
is processed, not discarded. -/
theorem claim_c1_entries_always_processed {E A : Type}
    (process : String → Follower → Follower × Except E (List A))
    (hp : ∀ blob st, ((process blob st).1).cur_log_time = st.cur_log_time)
    (s : Follower) (tok host line : String)
    (account_match : Option (String × String))
    (timestamp_match : Option (String × Nat))
    (entry_start : Option (Option (String × Nat) × String)) :
    (init_follower tok host).cur_log_time = some 0
    ∧ (s.cur_log_time ≠ none →
        ((append_line process s account_match timestamp_match
            entry_start line).1).cur_log_time ≠ none)
    ∧ (s.buffer ≠ [] → s.cur_log_time ≠ none →
        (handle_complete_log_entry process s).1 = some (String.join s.buffer)) := by
  refine ⟨rfl, ?_, ?_⟩
  · intro hnn
    rw [append_line_time process hp s line account_match timestamp_match entry_start]
    rcases entry_start with _ | ⟨timed, rest⟩ <;> try rcases timed with _ | ⟨raw2, t2⟩
    all_goals rcases timestamp_match with _ | ⟨raw, t⟩ <;> simp_all
  · intro hb ht
    rcases hpr : process (String.join s.buffer) s with ⟨s', res⟩
    cases res <;> simp [handle_complete_log_entry, hb, ht, hpr]

/-- Witness for C1 (amended): a fresh Follower with one buffered line
and no observed timestamp still hands the joined entry to processing. -/
theorem claim_c1_entries_always_processed_witness :
    (handle_complete_log_entry (E := String)
        (fun _ st => (st, Except.ok ([] : List Nat)))
        { init_follower "tok" "host" with buffer := ["line"] }).1
      = some (String.join ["line"]) :=
  (claim_c1_entries_always_processed (fun _ st => (st, Except.ok ([] : List Nat)))
      (fun _ _ => rfl) { init_follower "tok" "host" with buffer := ["line"] }
      "tok" "host" "line" none none none).2.2 (by decide) (by decide)

/-!  ## C3 — hand rebuilding from hand zones  -/

/-- Counterexample to C3: an unresolvable instance id is NOT skipped.
With seat 2 owning three card instances (10, 11, 12), a hand zone
listing instance ids [10, 99] — 99 unresolvable — rebuilds the hand as
`[some 100, none]`: the unresolved id contributes a `none` entry, so
the hand has length 2 where the claim's skipping would give `[some
100]` of length 1. -/
theorem claim_c3_counterexample :
    (process_zones
        { init_follower "tok" "host" with
            objects_by_owner := [(2, [(10, 100), (11, 101), (12, 102)])] }
        [{ type := "ZoneType_Hand", ownerSeatId := 2,
           objectInstanceIds := [10, 99] }]).cards_in_hand
      = [(2, [some 100, none])]
    ∧ none ∈ [some (100 : Nat), none]
    ∧ [some (100 : Nat), none] ≠ [some 100] :=
  ⟨rfl, by decide, by decide⟩

/-- C3 (amended): for every hand zone, the seat's hand is rebuilt by
mapping each listed non-zero instance id through the seat's accumulated
object ownership, in the listed order; a zero (falsy) instance id is
skipped, while an unresolvable one is kept as a `none` entry, so the
rebuilt hand has exactly one entry per non-zero listed id.  In the
claim's concrete scenario (all listed ids resolvable) the hand has
length 2, in listed order, with the correct card identifiers. -/
theorem claim_c3_hand_rebuild (st : Follower) (zone : Zone)
    (h : zone.type = "ZoneType_Hand") :
    lookupD (process_zones st [zone]).cards_in_hand zone.ownerSeatId []
      = (zone.objectInstanceIds.filter (fun i => i ≠ 0)).map
          (fun i => lookupA (lookupD st.objects_by_owner zone.ownerSeatId []) i)
    ∧ (lookupD (process_zones st [zone]).cards_in_hand zone.ownerSeatId []).length
      = (zone.objectInstanceIds.filter (fun i => i ≠ 0)).length
    ∧ ∀ k : Nat,
        (lookupD (process_zones st [zone]).cards_in_hand zone.ownerSeatId []).get? k
          = ((zone.objectInstanceIds.filter (fun i => i ≠ 0)).get? k).map
              (fun i => lookupA (lookupD st.objects_by_owner zone.ownerSeatId []) i) := by
  have h1 : lookupD (process_zones st [zone]).cards_in_hand zone.ownerSeatId []
      = (zone.objectInstanceIds.filter (fun i => i ≠ 0)).map
          (fun i => lookupA (lookupD st.objects_by_owner zone.ownerSeatId []) i) := by
    simp [process_zones, h, lookupD_setA_self]
  refine ⟨h1, by rw [h1]; simp, fun k => by rw [h1]; simp⟩

/-- Witness for C3 (amended): the claim's concrete scenario — seat 2
owns three instances, a hand zone lists two of them — rebuilds a
length-2 hand in listed order with the correct card ids. -/
theorem claim_c3_hand_rebuild_witness :
    lookupD
      (process_zones
        { init_follower "tok" "host" with
            objects_by_owner := [(2, [(10, 100), (11, 101), (12, 102)])] }
        [{ type := "ZoneType_Hand", ownerSeatId := 2,
           objectInstanceIds := [10, 12] }]).cards_in_hand 2 []
      = ([10, 12].filter (fun i => i ≠ 0)).map
          (fun i => lookupA [(10, 100), (11, 101), (12, 102)] i)
    ∧ ([10, 12].filter (fun i => (i : Nat) ≠ 0)).map
          (fun i => lookupA [(10, 100), (11, 101), (12, 102)] i)
        = [some 100, some 102] :=
  ⟨(claim_c3_hand_rebuild
      { init_follower "tok" "host" with
          objects_by_owner := [(2, [(10, 100), (11, 101), (12, 102)])] }
      { type := "ZoneType_Hand", ownerSeatId := 2, objectInstanceIds := [10, 12] }
      rfl).1,
   by decide⟩

/-!  ## C8 — envelope unwrapping  -/

/-- C8: envelope unwrapping of a decoded object — no `id` field: the
object itself; `id` and `payload`: the payload value; `id` and
`request` (no `payload`) with a successfully decoding request string:
the nested document; `id` and `request` with a failing nested decode:
the outer object.  Only mapping-shaped results pass on to
classification; non-mapping results are dropped. -/
theorem claim_c8_extract_payload (decode : String → Option Json)
    (fields : List (String × Json)) :
    (lookupField fields "id" = none →
      extract_payload decode (Json.obj fields) = Json.obj fields)
    ∧ (∀ i p : Json, lookupField fields "id" = some i →
        lookupField fields "payload" = some p →
        extract_payload decode (Json.obj fields) = p)
    ∧ (∀ (i : Json) (rs : String) (j : Json), lookupField fields "id" = some i →
        lookupField fields "payload" = none →
        lookupField fields "request" = some (Json.str rs) →
        decode rs = some j →
        extract_payload decode (Json.obj fields) = j)
    ∧ (∀ (i : Json) (rs : String), lookupField fields "id" = some i →
        lookupField fields "payload" = none →
        lookupField fields "request" = some (Json.str rs) →
        decode rs = none →
        extract_payload decode (Json.obj fields) = Json.obj fields)
    ∧ (∀ b : Json, is_mapping (extract_payload decode b) = false →
        effective_message decode b = none)
    ∧ (∀ b : Json, is_mapping (extract_payload decode b) = true →
        effective_message decode b = some (extract_payload decode b)) := by
  refine ⟨?_, ?_, ?_, ?_, ?_, ?_⟩
  · intro h
    simp [extract_payload, h]
  · intro i p h1 h2
    simp [extract_payload, h1, h2]
  · intro i rs j h1 h2 h3 h4
    simp [extract_payload, h1, h2, h3, h4]
  · intro i rs h1 h2 h3 h4
    simp [extract_payload, h1, h2, h3, h4]
  · intro b h
    simp [effective_message, h]
  · intro b h
    simp [effective_message, h]

/-- Witness for C8: each unwrapping case at a concrete object, and a
non-mapping (array) value being dropped. -/
theorem claim_c8_extract_payload_witness :
    extract_payload (fun _ => none) (Json.obj [("x", Json.num 1)])
      = Json.obj [("x", Json.num 1)]
    ∧ extract_payload (fun _ => none)
        (Json.obj [("id", Json.num 1), ("payload", Json.num 7)]) = Json.num 7
    ∧ extract_payload (fun _ => some (Json.obj [("ok", Json.num 2)]))
        (Json.obj [("id", Json.num 1), ("request", Json.str "r")])
      = Json.obj [("ok", Json.num 2)]
    ∧ extract_payload (fun _ => none)
        (Json.obj [("id", Json.num 1), ("request", Json.str "r")])
      = Json.obj [("id", Json.num 1), ("request", Json.str "r")]
    ∧ effective_message (fun _ => none) (Json.arr []) = none :=
  ⟨(claim_c8_extract_payload (fun _ => none) [("x", Json.num 1)]).1 rfl,
   (claim_c8_extract_payload (fun _ => none)
      [("id", Json.num 1), ("payload", Json.num 7)]).2.1
      (Json.num 1) (Json.num 7) rfl rfl,
   (claim_c8_extract_payload (fun _ => some (Json.obj [("ok", Json.num 2)]))
      [("id", Json.num 1), ("request", Json.str "r")]).2.2.1
      (Json.num 1) "r" (Json.obj [("ok", Json.num 2)]) rfl rfl rfl rfl,
   (claim_c8_extract_payload (fun _ => none)
      [("id", Json.num 1), ("request", Json.str "r")]).2.2.2.1
      (Json.num 1) "r" rfl rfl rfl rfl,
   (claim_c8_extract_payload (fun _ => none) []).2.2.2.2.1 (Json.arr []) rfl⟩

/-!  ## C4 — mulligan decision tracking  -/

/-- At a new decision point (observed mulligan count equal to the number
of hands already captured) the seat's current hand is snapshotted. -/
theorem process_mulligan_pair_drawn_extend (ti : TurnInfo) (st : Follower)
    (seat c : Nat) (h : c = (lookupD st.drawn_hands seat []).length) :
    lookupD (process_mulligan_pair ti st (seat, c)).drawn_hands seat []
      = lookupD st.drawn_hands seat [] ++ [lookupD st.cards_in_hand seat []] := by
  subst h
  by_cases hst : st.starting_team_id = none <;>
    simp [process_mulligan_pair, hst, lookupD_setA_self]

/-- At a repeated decision point (observed mulligan count different from
the captured-hand count) the mulligan history is unchanged. -/
theorem process_mulligan_pair_drawn_keep (ti : TurnInfo) (st : Follower)
    (seat c : Nat) (h : c ≠ (lookupD st.drawn_hands seat []).length) :
    (process_mulligan_pair ti st (seat, c)).drawn_hands = st.drawn_hands := by
  by_cases hst : st.starting_team_id = none <;>
    simp [process_mulligan_pair, hst, h]

/-- A player entry pending a mulligan decision at a given count. -/
def mulligan_pending_player (seat c : Nat) : PlayerInfo :=
  { systemSeatNumber := seat, mulliganCount := some c,
    pendingMessageType := some "ClientMessageType_MulliganResp" }

/-- A game-state message whose players list holds exactly one seat
pending a decision at count `c` contributes exactly that pair. -/
theorem process_mulligans_single (s : Follower) (ti : TurnInfo) (seat c : Nat) :
    process_mulligans s ti [mulligan_pending_player seat c]
      = process_mulligan_pair ti s (seat, c) := rfl

/-- The scenario of C4: one seat observed pending a mulligan decision at
successive counts 0, 1, …, n, one game-state message per count. -/
def mulligan_run (ti : TurnInfo) (seat n : Nat) (st : Follower) : Follower :=
  ((List.range (n + 1)).map (fun c => [mulligan_pending_player seat c])).foldl
    (fun s players => process_mulligans s ti players) st

theorem mulligan_run_succ (ti : TurnInfo) (seat n : Nat) (st : Follower) :
    mulligan_run ti seat (n + 1) st
      = process_mulligan_pair ti (mulligan_run ti seat n st) (seat, n + 1) := by
  unfold mulligan_run
  rw [List.range_succ (n := n + 1), List.map_append, List.foldl_append]
  rfl

theorem mulligan_run_length (ti : TurnInfo) (seat : Nat) :
    ∀ (n : Nat) (st : Follower), lookupD st.drawn_hands seat [] = [] →
      (lookupD (mulligan_run ti seat n st).drawn_hands seat []).length = n + 1
  | 0, st, h0 => by
    have he := process_mulligan_pair_drawn_extend ti st seat 0 (by rw [h0]; rfl)
    have : mulligan_run ti seat 0 st = process_mulligan_pair ti st (seat, 0) := rfl
    rw [this, he, h0]
    rfl
  | n + 1, st, h0 => by
    have ih := mulligan_run_length ti seat n st h0
    have he := process_mulligan_pair_drawn_extend ti (mulligan_run ti seat n st)
      seat (n + 1) (by rw [ih])
    rw [mulligan_run_succ, he]
    simp [ih]

/-- C4: a seat observed pending a mulligan decision at successive counts
0 through n captures a hand history of length n+1; a repeated decision
point at an already-seen count adds no duplicate snapshot; and the
game-result emitted from the GRE game-over path reports the mulligan
list excluding the final kept hand, of length n. -/
theorem claim_c4_mulligan_history (ti : TurnInfo) (seat n : Nat) (st : Follower)
    (h0 : lookupD st.drawn_hands seat [] = []) :
    (lookupD (mulligan_run ti seat n st).drawn_hands seat []).length = n + 1
    ∧ ((lookupD (mulligan_run ti seat n st).drawn_hands seat []).dropLast).length = n
    ∧ (∀ c : Nat, c ≤ n →
        (process_mulligans (mulligan_run ti seat n st) ti
            [mulligan_pending_player seat c]).drawn_hands
          = (mulligan_run ti seat n st).drawn_hands)
    ∧ (∀ (mid win_type reason : String) (w : Nat) (t : Int),
        (maybe_handle_game_over_stage (mulligan_run ti seat n st) [seat]
            { gameInfo :=
                { stage := some "GameStage_GameOver"
                  matchID := some mid
                  results := [{ scope := some "MatchScope_Game"
                                winningTeamId := some w
                                result := some win_type
                                reason := some reason }] }
              turnInfo := { turnNumber := some t } }).map
            (fun p => p.2.map (fun g => g.mulligans.length))
          = Except.ok (some n)) := by
  have hlen := mulligan_run_length ti seat n st h0
  refine ⟨hlen, ?_, ?_, ?_⟩
  · rw [List.length_dropLast, hlen]
    omega
  · intro c hc
    rw [process_mulligans_single]
    exact process_mulligan_pair_drawn_keep ti (mulligan_run ti seat n st) seat c
      (by rw [hlen]; omega)
  · intro mid win_type reason w t
    simp only [maybe_handle_game_over_stage, game_over_scan, emit_game_result,
      is_per_game_result, maybe_turn_number, send_game_end]
    simp [Except.map, Option.map, List.length_dropLast, hlen]

/-- Witness for C4: three successive decision points (counts 0, 1, 2)
from a fresh state capture a hand history of length 3. -/
theorem claim_c4_mulligan_history_witness :
    (lookupD (mulligan_run {} 2 2 (init_follower "tok" "host")).drawn_hands 2 []).length
      = 3 :=
  (claim_c4_mulligan_history {} 2 2 (init_follower "tok" "host") rfl).1

/-!  ## C5 — game-over scan and emission  -/

/-- The reversed-results loop is a first-match search: it emits at the
first per-game entry of the reversed list and nothing otherwise. -/
theorem game_over_scan_eq_find (s : Follower) (ids : List Nat)
    (gi : GameInfo) (gsm : GameStateMessage) :
    ∀ l : List ResultEntry,
      game_over_scan s ids gi gsm l =
        match l.find? is_per_game_result with
        | none => Except.ok (s, none)
        | some r => emit_game_result s ids gi gsm r
  | [] => by simp [game_over_scan]
  | r :: rest => by
    by_cases h : is_per_game_result r = true
    · rw [List.find?_cons_of_pos _ h]
      simp [game_over_scan, h]
    · rw [List.find?_cons_of_neg _ (by simp [h])]
      have ih := game_over_scan_eq_find s ids gi gsm rest
      simp [game_over_scan, h, ih]

/-- C5: on a game-over stage the handler scans the results list
most-recent-first, and at the first per-game-scope entry emits exactly
one game-result record built from that entry with the first system seat
id as the local seat; with no per-game-scope entry nothing is
emitted. -/
theorem claim_c5_game_over_scan (s : Follower) (ids : List Nat)
    (gsm : GameStateMessage)
    (hstage : gsm.gameInfo.stage = some "GameStage_GameOver") :
    (gsm.gameInfo.results.reverse.find? is_per_game_result = none →
      maybe_handle_game_over_stage s ids gsm = Except.ok (s, none))
    ∧ (∀ r : ResultEntry,
        gsm.gameInfo.results.reverse.find? is_per_game_result = some r →
        maybe_handle_game_over_stage s ids gsm
          = emit_game_result s ids gsm.gameInfo gsm r)
    ∧ (∀ (r : ResultEntry) (seat : Nat) (rest : List Nat)
          (mid win_type reason : String) (w : Nat) (t : Int),
        gsm.gameInfo.results.reverse.find? is_per_game_result = some r →
        ids = seat :: rest →
        gsm.gameInfo.matchID = some mid →
        gsm.turnInfo.turnNumber = some t →
        r.winningTeamId = some w →
        r.result = some win_type →
        r.reason = some reason →
        maybe_handle_game_over_stage s ids gsm
          = Except.ok
              ((send_game_end s seat mid (lookupD s.drawn_hands seat []).dropLast
                  (match s.current_match_event_id with
                   | some (m, e) => if m = mid then some e else none
                   | none => none)
                  (s.starting_team_id = some seat) (w = seat)
                  win_type reason t (-1)).1,
               some (send_game_end s seat mid (lookupD s.drawn_hands seat []).dropLast
                  (match s.current_match_event_id with
                   | some (m, e) => if m = mid then some e else none
                   | none => none)
                  (s.starting_team_id = some seat) (w = seat)
                  win_type reason t (-1)).2)) := by
  have hmain : maybe_handle_game_over_stage s ids gsm
      = game_over_scan s ids gsm.gameInfo gsm gsm.gameInfo.results.reverse := by
    simp [maybe_handle_game_over_stage, hstage]
  refine ⟨?_, ?_, ?_⟩
  · intro hf
    rw [hmain, game_over_scan_eq_find, hf]
  · intro r hf
    rw [hmain, game_over_scan_eq_find, hf]
  · intro r seat rest mid win_type reason w t hf hid hmid ht hw hr hrr
    subst hid
    rw [hmain, game_over_scan_eq_find, hf]
    simp [emit_game_result, hmid, maybe_turn_number, ht, hw, hr, hrr]

/-- Witness for C5: a concrete game-over message whose results hold a
match-scope entry (most recent: a per-game entry) emits the record of
the per-game entry for seat 1. -/
theorem claim_c5_game_over_scan_witness :
    maybe_handle_game_over_stage (init_follower "tok" "host") [1]
        { gameInfo :=
            { stage := some "GameStage_GameOver"
              matchID := some "m1"
              results := [{ scope := some "MatchScope_Match"
                            winningTeamId := some 1
                            result := some "mr"
                            reason := some "mx" },
                          { scope := some "MatchScope_Game"
                            winningTeamId := some 1
                            result := some "ResultType_WinLoss"
                            reason := some "ResultReason_Game" }] }
          turnInfo := { turnNumber := some 7 } }
      = emit_game_result (init_follower "tok" "host") [1]
          { stage := some "GameStage_GameOver"
            matchID := some "m1"
            results := [{ scope := some "MatchScope_Match"
                          winningTeamId := some 1
                          result := some "mr"
                          reason := some "mx" },
                        { scope := some "MatchScope_Game"
                          winningTeamId := some 1
                          result := some "ResultType_WinLoss"
                          reason := some "ResultReason_Game" }] }
          { gameInfo :=
              { stage := some "GameStage_GameOver"
                matchID := some "m1"
                results := [{ scope := some "MatchScope_Match"
                              winningTeamId := some 1
                              result := some "mr"
                              reason := some "mx" },
                            { scope := some "MatchScope_Game"
                              winningTeamId := some 1
                              result := some "ResultType_WinLoss"
                              reason := some "ResultReason_Game" }] }
            turnInfo := { turnNumber := some 7 } }
          { scope := some "MatchScope_Game"
            winningTeamId := some 1
            result := some "ResultType_WinLoss"
            reason := some "ResultReason_Game" } :=
  (claim_c5_game_over_scan (init_follower "tok" "host") [1] _ rfl).2.1
    { scope := some "MatchScope_Game"
      winningTeamId := some 1
      result := some "ResultType_WinLoss"
      reason := some "ResultReason_Game" } rfl

/-!  ## C10 — the seat-id read on the game-over path  -/

/-- Summing the players' turn counters can only fail on a missing field,
never with the seat `IndexError`. -/
theorem players_turn_sum_not_seat (ps : List PlayerInfo) :
    players_turn_sum ps ≠ Except.error GameOverErr.seatIndex := by
  induction ps with
  | nil => simp [players_turn_sum]
  | cons p rest ih =>
    cases hp : p.turnNumber
    · simp [players_turn_sum, hp]
    · cases hr : players_turn_sum rest
      · simp only [players_turn_sum, hp, hr, Except.map]
        intro hcon
        rw [hr] at ih
        exact ih (by rw [hcon])
      · simp [players_turn_sum, hp, hr, Except.map]

/-- The turn-number fallback chain never fails with the seat
`IndexError`. -/
theorem maybe_turn_number_not_seat (gsm : GameStateMessage) :
    maybe_turn_number gsm ≠ Except.error GameOverErr.seatIndex := by
  unfold maybe_turn_number
  cases gsm.turnInfo.turnNumber
  · by_cases hp : gsm.players.length > 0 <;> simp [hp, players_turn_sum_not_seat]
  · simp

/-- With a non-empty seat-id list the emission body cannot fail with the
seat `IndexError`. -/
theorem emit_game_result_not_seat (s : Follower) (seat : Nat) (rest : List Nat)
    (gi : GameInfo) (gsm : GameStateMessage) (r : ResultEntry) :
    emit_game_result s (seat :: rest) gi gsm r ≠ Except.error GameOverErr.seatIndex := by
  unfold emit_game_result
  cases gi.matchID
  · simp
  · cases htn : maybe_turn_number gsm with
    | error e =>
      have hmt := maybe_turn_number_not_seat gsm
      rw [htn] at hmt
      simp only [htn]
      intro hcon
      have he : e = GameOverErr.seatIndex := by
        injection hcon
      exact hmt (by rw [he])
    | ok tc =>
      cases r.winningTeamId <;> cases r.result <;> cases r.reason <;> simp [htn]

/-- With a non-empty seat-id list the whole reversed scan cannot fail
with the seat `IndexError`. -/
theorem game_over_scan_not_seat (s : Follower) (seat : Nat) (rest : List Nat)
    (gi : GameInfo) (gsm : GameStateMessage) :
    ∀ l : List ResultEntry,
      game_over_scan s (seat :: rest) gi gsm l ≠ Except.error GameOverErr.seatIndex
  | [] => by simp [game_over_scan]
  | r :: tl => by
    by_cases h : is_per_game_result r = true
    · simpa [game_over_scan, h] using emit_game_result_not_seat s seat rest gi gsm r
    · simpa [game_over_scan, h] using game_over_scan_not_seat s seat rest gi gsm tl

/-- C10: on a game-over message holding a per-game result, an empty
system-seat-id list makes the `system_seat_ids[0]` read fail
(`IndexError`): the failure propagates to the per-entry catch boundary,
which emits nothing, clears the buffer and continues; with a non-empty
seat-id list this failure is unreachable. -/
theorem claim_c10_empty_seat_list (gsm : GameStateMessage) (r : ResultEntry)
    (hstage : gsm.gameInfo.stage = some "GameStage_GameOver")
    (hfind : gsm.gameInfo.results.reverse.find? is_per_game_result = some r) :
    (∀ s : Follower,
      maybe_handle_game_over_stage s [] gsm = Except.error GameOverErr.seatIndex)
    ∧ (∀ (A : Type) (st st' : Follower) (e : GameOverErr),
        st.buffer ≠ [] → st.cur_log_time ≠ none →
        handle_complete_log_entry (A := A) (fun _ _ => (st', Except.error e)) st
          = (some (String.join st.buffer), { st' with buffer := [] }, []))
    ∧ (∀ (s : Follower) (ids : List Nat), ids ≠ [] →
        maybe_handle_game_over_stage s ids gsm ≠ Except.error GameOverErr.seatIndex) := by
  refine ⟨?_, ?_, ?_⟩
  · intro s
    have hmain : maybe_handle_game_over_stage s [] gsm
        = game_over_scan s [] gsm.gameInfo gsm gsm.gameInfo.results.reverse := by
      simp [maybe_handle_game_over_stage, hstage]
    rw [hmain, game_over_scan_eq_find, hfind]
    simp [emit_game_result]
  · intro A st st' e hb ht
    simp [handle_complete_log_entry, hb, ht]
  · intro s ids hne
    rcases ids with _ | ⟨seat, rest⟩
    · exact absurd rfl hne
    · have hmain : maybe_handle_game_over_stage s (seat :: rest) gsm
          = game_over_scan s (seat :: rest) gsm.gameInfo gsm
              gsm.gameInfo.results.reverse := by
        simp [maybe_handle_game_over_stage, hstage]
      rw [hmain]
      exact game_over_scan_not_seat s seat rest gsm.gameInfo gsm _

/-- Witness for C10: a concrete game-over message with one per-game
result and an empty seat-id list fails with the seat `IndexError`. -/
theorem claim_c10_empty_seat_list_witness :
    maybe_handle_game_over_stage (init_follower "tok" "host") []
        { gameInfo :=
            { stage := some "GameStage_GameOver"
              matchID := some "m1"
              results := [{ scope := some "MatchScope_Game"
                            winningTeamId := some 1
                            result := some "ResultType_WinLoss"
                            reason := some "ResultReason_Game" }] } }
      = Except.error GameOverErr.seatIndex :=
  (claim_c10_empty_seat_list
    { gameInfo :=
        { stage := some "GameStage_GameOver"
          matchID := some "m1"
          results := [{ scope := some "MatchScope_Game"
                        winningTeamId := some 1
                        result := some "ResultType_WinLoss"
                        reason := some "ResultReason_Game" }] } }
    { scope := some "MatchScope_Game"
      winningTeamId := some 1
      result := some "ResultType_WinLoss"
      reason := some "ResultReason_Game" } rfl rfl).1 (init_follower "tok" "host")

end Mtga
